import Mathlib

/-!
Verification of the local persistence / derived-metrics layer of the
Scarletts health-tracking app (frontend/app/utils storage module).

The TypeScript source stores each entity as a JSON blob under a string
key.  We embed the data model shallowly: date-keyed records become lists
of entries whose `date` field is the key (an integer day number, since
the source keys by ISO `YYYY-MM-DD` strings and all date arithmetic is
whole calendar days), JS numbers become `Int` (counters) or `Rat`
(weights), and `unlocked_at` timestamps become `Option String`.
`toFixed(n)` followed by `parseFloat` is modelled on `Rat` by rounding to
`n` decimal places half-away-from-zero, as JS does.
-/

/-- Substring test on character lists: does the list start with `sub`? -/
def startsWithChars : List Char → List Char → Bool
  | _, [] => true
  | [], _ :: _ => false
  | a :: as, b :: bs => a == b && startsWithChars as bs

/-- Substring containment on character lists. -/
def hasSubChars : List Char → List Char → Bool
  | [], sub => sub.isEmpty
  | a :: as, sub => startsWithChars (a :: as) sub || hasSubChars as sub

/-- JS `String.prototype.includes`. -/
def strIncludes (hay sub : String) : Bool :=
  hasSubChars hay.toList sub.toList

/-- JS `String.prototype.toLowerCase`, character by character (the
keywords below and the messages of interest are ASCII, where this
coincides with JS semantics). -/
def toLowerStr (s : String) : String :=
  ⟨s.toList.map Char.toLower⟩

/-- Canned response texts of `sendChat` (source lines 319-322). -/
def waterResponse : String :=
  "Trinke heute regelmäßig kleine Mengen Wasser. Ziel: 8–10 Gläser, verteile es über den Tag."

def recipeResponse : String :=
  "Leichtes Rezept: Quark mit Beeren und Nüssen. Viel Protein, wenig Zucker."

def weightResponse : String :=
  "Achte auf ein moderates Kaloriendefizit und ausreichend Protein. 8000 Schritte täglich sind ein guter Start."

def genericResponse : String :=
  "Danke für deine Nachricht! Ich unterstütze dich mit Tipps zu Ernährung, Bewegung und Motivation. Stelle mir gerne eine konkrete Frage."

/-- Model of `sendChat` (source lines 316-323): lowercase the message, then test
keyword groups in order water, recipe, weight; fall through to the
generic acknowledgement. -/
def sendChat (message : String) : String :=
  let lower := toLowerStr message
  if strIncludes lower "wasser" || strIncludes lower "trinken" then waterResponse
  else if strIncludes lower "rezepte" || strIncludes lower "rezept" then recipeResponse
  else if strIncludes lower "gewicht" || strIncludes lower "abnehmen" then weightResponse
  else genericResponse

/-- The keyword groups in the order the spec lists them (water-related,
recipe-related, weight-related), each with its canned response. -/
def keywordGroups : List (List String × String) :=
  [ (["wasser", "trinken"], waterResponse),
    (["rezepte", "rezept"], recipeResponse),
    (["gewicht", "abnehmen"], weightResponse) ]

/-- Spec-level responder (§4.4): first keyword group with a
case-insensitive substring match wins; no match yields the generic
acknowledgement. -/
def sendChatSpec (message : String) : String :=
  let lower := toLowerStr message
  match keywordGroups.find? (fun g => g.1.any (fun k => strIncludes lower k)) with
  | some g => g.2
  | none => genericResponse

/-- The five named drink counters (`DrinksMap`). -/
structure DrinksMap where
  wasser : Int
  abnehmkaffee : Int
  ingwer_knoblauch_tee : Int
  wasserkur : Int
  kaffee : Int
deriving DecidableEq, Repr

inductive DrinkType where
  | wasser | abnehmkaffee | ingwer_knoblauch_tee | wasserkur | kaffee
deriving DecidableEq, Repr

def DrinksMap.get (m : DrinksMap) : DrinkType → Int
  | .wasser => m.wasser
  | .abnehmkaffee => m.abnehmkaffee
  | .ingwer_knoblauch_tee => m.ingwer_knoblauch_tee
  | .wasserkur => m.wasserkur
  | .kaffee => m.kaffee

def DrinksMap.set (m : DrinksMap) : DrinkType → Int → DrinksMap
  | .wasser, v => { m with wasser := v }
  | .abnehmkaffee, v => { m with abnehmkaffee := v }
  | .ingwer_knoblauch_tee, v => { m with ingwer_knoblauch_tee := v }
  | .wasserkur, v => { m with wasserkur := v }
  | .kaffee, v => { m with kaffee := v }

def emptyDrinks : DrinksMap := ⟨0, 0, 0, 0, 0⟩

structure DrinkTracking where
  id : String
  date : Int
  drinks : DrinksMap
deriving DecidableEq, Repr

/-- Replace every record stored under `date` (a JS `Record` has one slot
per key, written by `drinksByDate[date] = next`). -/
def putByDate (l : List DrinkTracking) (next : DrinkTracking) : List DrinkTracking :=
  if l.any (fun d => d.date == next.date) then
    l.map (fun d => if d.date == next.date then next else d)
  else l ++ [next]

/-- Model of `updateDrink` (source lines 127-134): load the day's record or
synthesize a default with a fresh id, set the one counter to
`max 0 count`, store the record back.  Returns the record and the new
store. -/
def updateDrink (store : List DrinkTracking) (fresh : String) (date : Int)
    (dt : DrinkType) (count : Int) : DrinkTracking × List DrinkTracking :=
  let existing := (store.find? (fun d => d.date == date)).getD ⟨fresh, date, emptyDrinks⟩
  let next := { existing with drinks := existing.drinks.set dt (max 0 count) }
  (next, putByDate store next)

/-- Model of `WeightGoal` (source lines 40-49).  `goal_type`, weights, percentages
and dates are carried through unchanged by `createGoal`, so strings and
rationals suffice. -/
structure WeightGoal where
  id : String
  goal_type : String
  start_weight : Rat
  target_weight : Option Rat
  target_percentage : Option Rat
  start_date : Int
  target_date : Int
  is_active : Bool
deriving DecidableEq, Repr

/-- The argument of `createGoal`: every `WeightGoal` field except `id`,
with `is_active` optional (`Omit<WeightGoal,'id'|'is_active'> &
Partial<Pick<WeightGoal,'is_active'>>`). -/
structure GoalInput where
  goal_type : String
  start_weight : Rat
  target_weight : Option Rat
  target_percentage : Option Rat
  start_date : Int
  target_date : Int
  is_active : Option Bool
deriving DecidableEq, Repr

/-- The goal object `{ id: genId('goal'), is_active: true, ...goal }`:
the spread comes last, so an `is_active` supplied by the caller
overrides the `true` default. -/
def mkGoal (fresh : String) (g : GoalInput) : WeightGoal :=
  { id := fresh
    goal_type := g.goal_type
    start_weight := g.start_weight
    target_weight := g.target_weight
    target_percentage := g.target_percentage
    start_date := g.start_date
    target_date := g.target_date
    is_active := g.is_active.getD true }

/-- Model of `createGoal` (source lines 176-184): build the new goal, deactivate
every stored goal, append the new goal, persist. -/
def createGoal (goals : List WeightGoal) (fresh : String) (g : GoalInput) :
    WeightGoal × List WeightGoal :=
  let newGoal := mkGoal fresh g
  (newGoal, goals.map (fun o => { o with is_active := false }) ++ [newGoal])

def countActive (goals : List WeightGoal) : Nat :=
  (goals.filter (fun g => g.is_active)).length

/-- Model of `Reminder` (source line 74). -/
structure Reminder where
  id : String
  reminder_type : String
  time : String
  is_enabled : Bool
deriving DecidableEq, Repr

/-- In-place update of the element at index `i`, as JS
`list[idx].is_enabled = !list[idx].is_enabled` / `list[idx].time = time`. -/
def setAt (l : List Reminder) (i : Nat) (f : Reminder → Reminder) : List Reminder :=
  match l.get? i with
  | some r => l.set i (f r)
  | none => l

/-- Model of `toggleReminder` (source lines 195-200): find the index of the
reminder with this id; if found, flip `is_enabled` and persist; return
`list[idx]` (which is `undefined`, here `none`, when `idx = -1`). -/
def toggleReminder (l : List Reminder) (id : String) : Option Reminder × List Reminder :=
  match l.findIdx? (fun r => r.id == id) with
  | some i =>
    let l' := setAt l i (fun r => { r with is_enabled := !r.is_enabled })
    (l'.get? i, l')
  | none => (none, l)

/-- Model of `updateReminderTime` (source lines 201-206). -/
def updateReminderTime (l : List Reminder) (id : String) (time : String) :
    Option Reminder × List Reminder :=
  match l.findIdx? (fun r => r.id == id) with
  | some i =>
    let l' := setAt l i (fun r => { r with time := time })
    (l'.get? i, l')
  | none => (none, l)

/-- JS round-half-away-from-zero, the rounding `toFixed` applies. -/
def jsRoundHalfAway (q : Rat) : Int :=
  if 0 ≤ q then ⌊q + 1/2⌋ else -⌊-q + 1/2⌋

/-- Model of `parseFloat(x.toFixed(1))` on `Rat`. -/
def toFixed1 (q : Rat) : Rat := (jsRoundHalfAway (q * 10) : Rat) / 10

/-- Model of `parseFloat(x.toFixed(2))` on `Rat`. -/
def toFixed2 (q : Rat) : Rat := (jsRoundHalfAway (q * 100) : Rat) / 100

/-- Model of `WeightEntry` (source line 39); `date` is the store key. -/
structure WeightEntry where
  id : String
  date : Int
  weight : Rat
deriving DecidableEq, Repr

def insertByDate (w : WeightEntry) : List WeightEntry → List WeightEntry
  | [] => [w]
  | x :: t => if w.date ≤ x.date then w :: x :: t else x :: insertByDate w t

/-- Model of `sort((a,b) => date(a) - date(b))`: ascending by date. -/
def sortByDate : List WeightEntry → List WeightEntry
  | [] => []
  | x :: t => insertByDate x (sortByDate t)

/-- Model of `getWeightRange` (source lines 145-155): keep the entries whose date
lies in the inclusive window, sorted ascending by date. -/
def getWeightRange (weights : List WeightEntry) (start stop : Int) : List WeightEntry :=
  sortByDate (weights.filter (fun w => start ≤ w.date && w.date ≤ stop))

structure ProgressPoint where
  date : Int
  weight : Rat
  difference : Rat
deriving DecidableEq, Repr

def progressTail (prev : WeightEntry) : List WeightEntry → List ProgressPoint
  | [] => []
  | e :: t => ⟨e.date, e.weight, toFixed1 (e.weight - prev.weight)⟩ :: progressTail e t

/-- Model of `data.map((e, idx) => ...)`: day-over-day differences, 0 for the
first entry. -/
def progressPoints : List WeightEntry → List ProgressPoint
  | [] => []
  | e :: t => ⟨e.date, e.weight, 0⟩ :: progressTail e t

structure WeightSummary where
  total_days : Int
  entries_found : Nat
  total_change : Rat
  start_weight : Option Rat
  current_weight : Option Rat
  average_daily_change : Rat
deriving DecidableEq, Repr

/-- Model of `getWeightProgress` (source lines 157-172).  The window is the `days`
calendar days ending `today` (start = today − days + 1). -/
def getWeightProgress (weights : List WeightEntry) (today : Int) (days : Int) :
    List ProgressPoint × WeightSummary :=
  let data := getWeightRange weights (today - days + 1) today
  let first := (data.head?.map (fun e => e.weight)).getD 0
  let last := (data.getLast?.map (fun e => e.weight)).getD 0
  let summary : WeightSummary :=
    { total_days := days
      entries_found := data.length
      total_change := if data.length > 1 then toFixed1 (last - first) else 0
      start_weight := data.head?.map (fun e => e.weight)
      current_weight := data.getLast?.map (fun e => e.weight)
      average_daily_change :=
        if data.length > 1 then toFixed2 ((last - first) / ((data.length : Rat) - 1)) else 0 }
  (progressPoints data, summary)

/-- Model of `PillTracking` (source line 36). -/
structure PillTracking where
  id : String
  date : Int
  morning_taken : Bool
  evening_taken : Bool
deriving DecidableEq, Repr

/-- Model of `Achievement` (source lines 50-62). -/
structure Achievement where
  id : String
  badge_type : String
  title : String
  description : String
  icon : String
  color : String
  xp_reward : Int
  requirement_count : Int
  current_count : Int
  is_unlocked : Bool
  unlocked_at : Option String
deriving DecidableEq, Repr

/-- Model of `UserStats` (source lines 63-73). -/
structure UserStats where
  id : String
  total_xp : Int
  current_level : Int
  current_streak_days : Int
  longest_streak : Int
  pills_taken_total : Int
  water_goals_achieved : Int
  weight_entries_total : Int
  perfect_days : Int
deriving DecidableEq, Repr

/-- Model of `baseAchievements` (source lines 226-232): the fixed 3-entry seed
catalog. -/
def baseAchievements : List Achievement :=
  [ { id := "a1", badge_type := "first_weight", title := "Erster Eintrag",
      description := "Erstes Gewicht gespeichert", icon := "checkmark-circle",
      color := "#FFD54F", xp_reward := 50, requirement_count := 1,
      current_count := 0, is_unlocked := false, unlocked_at := none },
    { id := "a2", badge_type := "seven_days", title := "7 Tage",
      description := "7 Tage Gewichte gespeichert", icon := "calendar",
      color := "#4FC3F7", xp_reward := 100, requirement_count := 7,
      current_count := 0, is_unlocked := false, unlocked_at := none },
    { id := "a3", badge_type := "water_10", title := "Wassermeister",
      description := "10 Gläser Wasser an einem Tag", icon := "water",
      color := "#64B5F6", xp_reward := 120, requirement_count := 10,
      current_count := 0, is_unlocked := false, unlocked_at := none } ]

/-- JS falsiness of `a.unlocked_at` in `!a.unlocked_at`: `undefined`
(`none`) and the empty string are falsy. -/
def jsFalsyStr : Option String → Bool
  | none => true
  | some s => s == ""

/-- Stamp `unlocked_at` as `if (a.is_unlocked && !a.unlocked_at)
a.unlocked_at = now`. -/
def stampUnlocked (now : String) (a : Achievement) : Achievement :=
  if a.is_unlocked && jsFalsyStr a.unlocked_at then { a with unlocked_at := some now }
  else a

/-- The `ach.forEach` body (source lines 244-262): per badge type,
recompute `current_count` and `is_unlocked`, then stamp `unlocked_at`
on a fresh unlock.  `wTot` is the number of stored weight dates,
`glasses` today's water counter. -/
def updateAchievement (wTot : Nat) (glasses : Int) (now : String)
    (a : Achievement) : Achievement :=
  let a :=
    if a.badge_type == "first_weight" then
      let cc : Int := if wTot > 0 then 1 else 0
      stampUnlocked now { a with current_count := cc,
                                 is_unlocked := decide (cc ≥ a.requirement_count) }
    else a
  let a :=
    if a.badge_type == "seven_days" then
      let cc : Int := min 7 (wTot : Int)
      stampUnlocked now { a with current_count := cc,
                                 is_unlocked := decide (cc ≥ a.requirement_count) }
    else a
  let a :=
    if a.badge_type == "water_10" then
      stampUnlocked now { a with current_count := glasses,
                                 is_unlocked := decide (glasses ≥ a.requirement_count) }
    else a
  a

/-- The weight / drink / pill records and the possibly-absent persisted
achievement catalog read at the start of `computeAchievementsAndStats`,
plus the ambient clock (`todayISO()` as a day number, `new
Date().toISOString()` as the stamp string). -/
structure ComputeEnv where
  weights : List WeightEntry
  drinks : List DrinkTracking
  pills : List PillTracking
  storedAch : Option (List Achievement)
  today : Int
  now : String

/-- Model of `drinksByDate[todayISO()]?.drinks?.wasser || 0`. -/
def glassesToday (drinks : List DrinkTracking) (today : Int) : Int :=
  match drinks.find? (fun d => d.date == today) with
  | some d => d.drinks.wasser
  | none => 0

/-- The streak loop (source lines 268-275): walk backward from day `d`,
counting days with a weight entry, for at most `fuel` iterations
(iteration `i` of the source loop checks `today - i`), stopping at the
first gap. -/
def streakLoop (hasEntry : Int → Bool) (d : Int) : Nat → Nat
  | 0 => 0
  | fuel + 1 => if hasEntry d then 1 + streakLoop hasEntry (d - 1) fuel else 0

def hasWeightOn (weights : List WeightEntry) (d : Int) : Bool :=
  weights.any (fun w => w.date == d)

/-- Model of `computeAchievementsAndStats` (source lines 234-292).  Returns the
updated catalog and the stats singleton; both are also what the call
persists. -/
def computeAchievementsAndStats (env : ComputeEnv) : List Achievement × UserStats :=
  let ach := env.storedAch.getD baseAchievements
  let wTot := env.weights.length
  let glasses := glassesToday env.drinks env.today
  let ach := ach.map (updateAchievement wTot glasses env.now)
  let total_xp := ((ach.filter (fun a => a.is_unlocked)).map (fun a => a.xp_reward)).sum
  let current_level := max 1 (Int.fdiv total_xp 500 + 1)
  let streak := streakLoop (hasWeightOn env.weights) env.today 365
  let stats : UserStats :=
    { id := "user_stats"
      total_xp := total_xp
      current_level := current_level
      current_streak_days := (streak : Int)
      longest_streak := (streak : Int)
      pills_taken_total :=
        (env.pills.map (fun p => (if p.morning_taken then 1 else 0) +
          (if p.evening_taken then (1 : Int) else 0))).sum
      water_goals_achieved := 0
      weight_entries_total := (wTot : Int)
      perfect_days := 0 }
  (ach, stats)

/-- A store with no weight entries but 12 glasses of water recorded for
today, achievements never yet persisted. -/
def envWater12 : ComputeEnv :=
  ⟨[], [⟨"d1", 0, ⟨12, 0, 0, 0, 0⟩⟩], [], none, 0, "T0"⟩

/-- The badge type / requirement pairs of the fixed catalog; every
catalog `computeAchievementsAndStats` ever persists consists of such
achievements, since it rewrites the seed catalog without touching
`badge_type` or `requirement_count`. -/
def recognizedBadge (a : Achievement) : Prop :=
  (a.badge_type = "first_weight" ∧ a.requirement_count = 1) ∨
  (a.badge_type = "seven_days" ∧ a.requirement_count = 7) ∨
  (a.badge_type = "water_10" ∧ a.requirement_count = 10)

instance (a : Achievement) : Decidable (recognizedBadge a) := by
  unfold recognizedBadge
  infer_instance

/-- The mutable context of one `computeAchievementsAndStats` call in a
sequence: the user records and clock may change arbitrarily between
calls, while the achievement catalog persisted by the previous call is
what the next call reads. -/
structure RecomputeStep where
  weights : List WeightEntry
  drinks : List DrinkTracking
  pills : List PillTracking
  today : Int
  now : String

def stepEnv (c : List Achievement) (s : RecomputeStep) : ComputeEnv :=
  ⟨s.weights, s.drinks, s.pills, some c, s.today, s.now⟩

/-- Thread the persisted catalog through a sequence of recomputations. -/
def runRecomputes (c : List Achievement) (steps : List RecomputeStep) : List Achievement :=
  steps.foldl (fun c s => (computeAchievementsAndStats (stepEnv c s)).1) c

/-! ## Theorems -/

/-- C8: `sendChat` lowercases the message and tests the fixed keyword
groups in order water, recipe, weight, returning the first matching
group's canned response, with the generic acknowledgement as fallback
(it refines the spec-level responder `sendChatSpec`); and the message
"Wie viel Wasser soll ich trinken?" gets the water response, which is
not the generic fallback. -/
theorem c8_sendChat_keyword_order :
    (∀ m : String, sendChat m = sendChatSpec m) ∧
    sendChat "Wie viel Wasser soll ich trinken?" = waterResponse ∧
    waterResponse ≠ genericResponse := by
  refine ⟨fun m => ?_, by decide, by decide⟩
  cases h1 : strIncludes (toLowerStr m) "wasser" <;>
    cases h2 : strIncludes (toLowerStr m) "trinken" <;>
    cases h3 : strIncludes (toLowerStr m) "rezepte" <;>
    cases h4 : strIncludes (toLowerStr m) "rezept" <;>
    cases h5 : strIncludes (toLowerStr m) "gewicht" <;>
    cases h6 : strIncludes (toLowerStr m) "abnehmen" <;>
    simp [sendChat, sendChatSpec, keywordGroups, List.find?, h1, h2, h3, h4, h5, h6]

lemma DrinksMap.get_set (m : DrinksMap) (dt : DrinkType) (v : Int) :
    (m.set dt v).get dt = v := by
  cases dt <;> rfl

lemma DrinksMap.set_set (m : DrinksMap) (dt : DrinkType) (v : Int) :
    (m.set dt v).set dt v = m.set dt v := by
  cases dt <;> rfl

lemma replaceFun_apply_self (next d : DrinkTracking) :
    (if (if d.date == next.date then next else d).date == next.date then next
      else if d.date == next.date then next else d) =
    (if d.date == next.date then next else d) := by
  by_cases h : d.date == next.date <;> simp [h]

lemma replaceFun_pred (next d : DrinkTracking) :
    ((if d.date == next.date then next else d).date == next.date) = (d.date == next.date) := by
  by_cases h : d.date == next.date <;> simp [h]

lemma putByDate_find? (l : List DrinkTracking) (next : DrinkTracking) :
    (putByDate l next).find? (fun d => d.date == next.date) = some next := by
  unfold putByDate
  split
  · rename_i hany
    induction l with
    | nil => simp at hany
    | cons x t ih =>
      by_cases hx : x.date == next.date
      · simp [List.find?, hx]
      · simp only [List.any_cons, Bool.or_eq_true] at hany
        rcases hany with h | h
        · exact absurd h hx
        · simpa [List.find?, hx] using ih h
  · rename_i hany
    induction l with
    | nil => simp [List.find?]
    | cons x t ih =>
      simp only [List.any_cons, Bool.or_eq_true, not_or] at hany
      have hx : (x.date == next.date) = false := by
        cases h : x.date == next.date
        · rfl
        · exact absurd h hany.1
      simpa [List.find?, hx] using ih (by simp [hany.2])

lemma putByDate_self (l : List DrinkTracking) (next : DrinkTracking) :
    putByDate (putByDate l next) next = putByDate l next := by
  have hff : ∀ d, (fun d => if d.date == next.date then next else d)
      ((fun d => if d.date == next.date then next else d) d) =
      (fun d => if d.date == next.date then next else d) d := fun d =>
    replaceFun_apply_self next d
  unfold putByDate
  by_cases hany : (l.any fun d => d.date == next.date) = true
  · rw [if_pos hany]
    have hpf : ((fun d : DrinkTracking => d.date == next.date) ∘
        (fun d => if d.date == next.date then next else d)) =
        (fun d : DrinkTracking => d.date == next.date) :=
      funext fun d => replaceFun_pred next d
    have hany2 : ((l.map fun d => if d.date == next.date then next else d).any
        fun d => d.date == next.date) = true := by
      rw [List.any_map, hpf]
      exact hany
    rw [if_pos hany2, List.map_map]
    exact List.map_congr_left fun d _ => hff d
  · rw [if_neg hany]
    have hnone : ∀ d ∈ l, (d.date == next.date) = false := by
      intro d hd
      cases h : d.date == next.date
      · rfl
      · exact absurd (by exact List.any_eq_true.mpr ⟨d, hd, h⟩) hany
    have hany2 : ((l ++ [next]).any fun d => d.date == next.date) = true := by
      simp [List.any_append]
    rw [if_pos hany2, List.map_append]
    have h1 : (l.map fun d => if d.date == next.date then next else d) = l := by
      conv_rhs => rw [← List.map_id l]
      exact List.map_congr_left fun d hd => by simp [hnone d hd]
    have h2 : ([next].map fun d => if d.date == next.date then next else d) = [next] := by
      simp
    rw [h1, h2]

/-- C9: `updateDrink` is idempotent — a second call with the same date,
drink type and target count leaves the stored record and the store
unchanged — and the updated counter is exactly `max 0 count`: clamped at
zero from below, with no upper bound applied. -/
theorem c9_updateDrink_idempotent_clamped (store : List DrinkTracking)
    (f1 f2 : String) (date : Int) (dt : DrinkType) (count : Int) :
    (updateDrink (updateDrink store f1 date dt count).2 f2 date dt count).1
      = (updateDrink store f1 date dt count).1 ∧
    (updateDrink (updateDrink store f1 date dt count).2 f2 date dt count).2
      = (updateDrink store f1 date dt count).2 ∧
    (updateDrink store f1 date dt count).1.drinks.get dt = max 0 count ∧
    0 ≤ (updateDrink store f1 date dt count).1.drinks.get dt := by
  simp only [updateDrink]
  set existing := ((store.find? fun d => d.date == date).getD ⟨f1, date, emptyDrinks⟩)
    with hex
  set next := { existing with drinks := existing.drinks.set dt (max 0 count) } with hnextdef
  have hexdate : existing.date = date := by
    rw [hex]
    cases hf : store.find? fun d => d.date == date with
    | none => rfl
    | some d =>
      have hd := List.find?_some hf
      simp only [Option.getD_some]
      simpa using hd
  have hnextdate : next.date = date := hexdate
  have hfind : ((putByDate store next).find? fun d => d.date == date) = some next := by
    have h := putByDate_find? store next
    rw [hnextdate] at h
    exact h
  have hfound : ((putByDate store next).find? fun d => d.date == date).getD
      ⟨f2, date, emptyDrinks⟩ = next := by rw [hfind]; rfl
  have hnext2 : ({ ((putByDate store next).find? fun d => d.date == date).getD
        ⟨f2, date, emptyDrinks⟩ with
        drinks := (((putByDate store next).find? fun d => d.date == date).getD
          ⟨f2, date, emptyDrinks⟩).drinks.set dt (max 0 count) } : DrinkTracking) = next := by
    rw [hfound, hnextdef]
    simp only [DrinksMap.set_set]
  refine ⟨hnext2, ?_, ?_, ?_⟩
  · rw [hnext2, putByDate_self]
  · simp only [hnextdef, DrinksMap.get_set]
  · simp only [hnextdef, DrinksMap.get_set, le_max_iff, le_refl, true_or]

/-- C10: when no stored reminder has the requested id, `toggleReminder`
and `updateReminderTime` leave the stored list unchanged and return
`undefined` (modelled `none`) instead of raising. -/
theorem c10_missing_reminder_noop (l : List Reminder) (id time : String)
    (h : ∀ r ∈ l, r.id ≠ id) :
    toggleReminder l id = (none, l) ∧ updateReminderTime l id time = (none, l) := by
  have hidx : l.findIdx? (fun r => r.id == id) = none := by
    rw [List.findIdx?_eq_none_iff]
    intro r hr
    simpa using h r hr
  constructor
  · unfold toggleReminder
    rw [hidx]
  · unfold updateReminderTime
    rw [hidx]

theorem c10_missing_reminder_noop_witness :
    (∀ r ∈ [(⟨"rem_1", "pills_morning", "08:00", true⟩ : Reminder)], r.id ≠ "rem_404") ∧
    toggleReminder [(⟨"rem_1", "pills_morning", "08:00", true⟩ : Reminder)] "rem_404" =
      (none, [(⟨"rem_1", "pills_morning", "08:00", true⟩ : Reminder)]) ∧
    updateReminderTime [(⟨"rem_1", "pills_morning", "08:00", true⟩ : Reminder)] "rem_404"
        "09:30" =
      (none, [(⟨"rem_1", "pills_morning", "08:00", true⟩ : Reminder)]) :=
  ⟨by decide, (c10_missing_reminder_noop _ "rem_404" "09:30" (by decide)).1,
    (c10_missing_reminder_noop _ "rem_404" "09:30" (by decide)).2⟩

/-- C2 counterexample: `createGoal` spreads the caller's input after the
`is_active: true` default, so an input with `is_active = false` —
allowed by the signature `Omit<WeightGoal,'id'|'is_active'> &
Partial<Pick<WeightGoal,'is_active'>>` — produces a stored list with no
active goal at all, refuting "after each creation exactly one goal has
`is_active = true`". -/
theorem c2_counterexample :
    countActive (createGoal [] "goal_1"
      ⟨"fixed_weight", 80, some 70, none, 0, 30, some false⟩).2 = 0 ∧
    (createGoal [] "goal_1"
      ⟨"fixed_weight", 80, some 70, none, 0, 30, some false⟩).1.is_active = false := by
  constructor <;> rfl

/-- C2 (amended): after every `createGoal` call, at most one stored goal
is active: every previously stored goal is deactivated, any active goal
equals the goal just created, and the created goal is active exactly
when the input does not set `is_active` to `false` (it is inactive when
the caller passes `is_active = false`). -/
theorem c2_createGoal_at_most_one_active (goals : List WeightGoal) (fresh : String)
    (g : GoalInput) :
    countActive (createGoal goals fresh g).2 = (if g.is_active.getD true then 1 else 0) ∧
    (∀ x ∈ (createGoal goals fresh g).2, x.is_active = true → x = mkGoal fresh g) ∧
    (createGoal goals fresh g).1 = mkGoal fresh g := by
  refine ⟨?_, ?_, rfl⟩
  · unfold createGoal countActive
    rw [List.filter_append]
    have h1 : ((goals.map fun o => { o with is_active := false }).filter
        fun x => x.is_active) = [] := by
      simp [List.filter_map, Function.comp]
    rw [h1, List.nil_append]
    by_cases hact : (mkGoal fresh g).is_active
    · rw [if_pos (by simpa [mkGoal] using hact)]
      simp [List.filter, hact]
    · rw [if_neg (by simpa [mkGoal] using hact)]
      simp [List.filter, hact]
  · intro x hx hact
    unfold createGoal at hx
    rcases List.mem_append.mp hx with hmem | hmem
    · rcases List.mem_map.mp hmem with ⟨o, _, rfl⟩
      simp at hact
    · simpa using hmem

theorem c2_createGoal_witness :
    countActive (createGoal [] "goal_1"
      ⟨"percentage", 90, none, some 10, 0, 60, none⟩).2 = 1 ∧
    (∀ x ∈ (createGoal [] "goal_1" ⟨"percentage", 90, none, some 10, 0, 60, none⟩).2,
      x.is_active = true → x = mkGoal "goal_1" ⟨"percentage", 90, none, some 10, 0, 60, none⟩) :=
  ⟨(c2_createGoal_at_most_one_active [] "goal_1" _).1,
    (c2_createGoal_at_most_one_active [] "goal_1" _).2.1⟩

lemma insertByDate_length (w : WeightEntry) (l : List WeightEntry) :
    (insertByDate w l).length = l.length + 1 := by
  induction l with
  | nil => rfl
  | cons x t ih =>
    unfold insertByDate
    split
    · rfl
    · simp [ih]

lemma sortByDate_length (l : List WeightEntry) :
    (sortByDate l).length = l.length := by
  induction l with
  | nil => rfl
  | cons x t ih => simp [sortByDate, insertByDate_length, ih]

lemma getWeightRange_length (weights : List WeightEntry) (start stop : Int) :
    (getWeightRange weights start stop).length =
      (weights.filter fun w => start ≤ w.date && w.date ≤ stop).length := by
  unfold getWeightRange
  exact sortByDate_length _

/-- C5: for a positive window of `d` days over a store keyed by unique
dates, `getWeightProgress` finds at most `d` entries, and with at most
one entry both change figures are 0. -/
theorem c5_weight_progress_bounds (weights : List WeightEntry) (today d : Int)
    (hd : 0 < d) (hnd : (weights.map fun w => w.date).Nodup) :
    ((getWeightProgress weights today d).2.entries_found : Int) ≤ d ∧
    ((getWeightProgress weights today d).2.entries_found ≤ 1 →
      (getWeightProgress weights today d).2.total_change = 0 ∧
      (getWeightProgress weights today d).2.average_daily_change = 0) := by
  have hef : (getWeightProgress weights today d).2.entries_found =
      (getWeightRange weights (today - d + 1) today).length := rfl
  constructor
  · rw [hef, getWeightRange_length]
    set l := weights.filter fun w => today - d + 1 ≤ w.date && w.date ≤ today with hl
    have hsub : List.Sublist (l.map fun w => w.date) (weights.map fun w => w.date) :=
      (List.filter_sublist weights).map _
    have hnd' : (l.map fun w => w.date).Nodup := hnd.sublist hsub
    have hss : (l.map fun w => w.date).toFinset ⊆ Finset.Icc (today - d + 1) today := by
      intro x hx
      rcases List.mem_map.mp (List.mem_toFinset.mp hx) with ⟨w, hw, rfl⟩
      have hcond := (List.mem_filter.mp hw).2
      simp only [Bool.and_eq_true, decide_eq_true_eq] at hcond
      exact Finset.mem_Icc.mpr hcond
    have hcard : (l.map fun w => w.date).length ≤ (Finset.Icc (today - d + 1) today).card := by
      rw [← List.toFinset_card_of_nodup hnd']
      exact Finset.card_le_card hss
    rw [List.length_map] at hcard
    rw [Int.card_Icc] at hcard
    have : (today + 1 - (today - d + 1)) = d := by ring
    rw [this] at hcard
    omega
  · intro h1
    rw [hef] at h1
    have hgt : ¬ ((getWeightRange weights (today - d + 1) today).length > 1) := by omega
    constructor
    · show (if (getWeightRange weights (today - d + 1) today).length > 1
          then _ else (0 : Rat)) = 0
      rw [if_neg hgt]
    · show (if (getWeightRange weights (today - d + 1) today).length > 1
          then _ else (0 : Rat)) = 0
      rw [if_neg hgt]

theorem c5_weight_progress_bounds_witness :
    (0 : Int) < 7 ∧
    (([(⟨"w1", 3, 80⟩ : WeightEntry)].map fun w => w.date).Nodup) ∧
    ((getWeightProgress [(⟨"w1", 3, 80⟩ : WeightEntry)] 3 7).2.entries_found : Int) ≤ 7 ∧
    ((getWeightProgress [(⟨"w1", 3, 80⟩ : WeightEntry)] 3 7).2.entries_found ≤ 1 →
      (getWeightProgress [(⟨"w1", 3, 80⟩ : WeightEntry)] 3 7).2.total_change = 0 ∧
      (getWeightProgress [(⟨"w1", 3, 80⟩ : WeightEntry)] 3 7).2.average_daily_change = 0) :=
  ⟨by decide, by decide,
    (c5_weight_progress_bounds _ 3 7 (by decide) (by decide)).1,
    (c5_weight_progress_bounds _ 3 7 (by decide) (by decide)).2⟩

lemma c3_data_eval :
    getWeightRange [⟨"w1", 1, 80⟩, ⟨"w2", 7, (157 : Rat) / 2⟩] (7 - 7 + 1) 7 =
      [⟨"w1", 1, 80⟩, ⟨"w2", 7, (157 : Rat) / 2⟩] := rfl

lemma c3_total_eval : toFixed1 ((157 : Rat) / 2 - 80) = -(3 / 2) := by
  have hq : ((157 : Rat) / 2 - 80) * 10 = -15 := by norm_num
  unfold toFixed1 jsRoundHalfAway
  rw [hq, if_neg (by norm_num)]
  norm_num

lemma c3_avg_eval : toFixed2 (((157 : Rat) / 2 - 80) / ((2 : Rat) - 1)) = -(3 / 2) := by
  have hq : (((157 : Rat) / 2 - 80) / ((2 : Rat) - 1)) * 100 = -150 := by norm_num
  unfold toFixed2 jsRoundHalfAway
  rw [hq, if_neg (by norm_num)]
  norm_num

lemma c3_summary_total :
    (getWeightProgress [⟨"w1", 1, 80⟩, ⟨"w2", 7, (157 : Rat) / 2⟩] 7 7).2.total_change
      = -(3 / 2) := by
  show (if (getWeightRange [⟨"w1", 1, 80⟩, ⟨"w2", 7, (157 : Rat) / 2⟩] (7 - 7 + 1) 7).length > 1
      then _ else (0 : Rat)) = -(3 / 2)
  rw [c3_data_eval]
  simpa using c3_total_eval

lemma c3_summary_avg :
    (getWeightProgress [⟨"w1", 1, 80⟩, ⟨"w2", 7, (157 : Rat) / 2⟩] 7 7).2.average_daily_change
      = -(3 / 2) := by
  show (if (getWeightRange [⟨"w1", 1, 80⟩, ⟨"w2", 7, (157 : Rat) / 2⟩] (7 - 7 + 1) 7).length > 1
      then _ else (0 : Rat)) = -(3 / 2)
  rw [c3_data_eval]
  simpa using c3_avg_eval

/-- C3 counterexample: with exactly 80.0 kg on day 1 and 78.5 kg on day
7 of the trailing 7-day window, `getWeightProgress(7)` divides the total
change by `entries_found - 1 = 1`, not by the 6-day span, so the average
daily change is -1.5 rather than the claimed -0.25. -/
theorem c3_counterexample :
    (getWeightProgress [⟨"w1", 1, 80⟩, ⟨"w2", 7, (157 : Rat) / 2⟩] 7 7).2.average_daily_change
      ≠ -1 / 4 := by
  rw [c3_summary_avg]
  norm_num

/-- C3 (amended): in the same two-entry scenario the summary reports
`total_change = -1.5` and `average_daily_change = -1.5` (total change
divided by `entries_found - 1 = 1`). -/
theorem c3_two_entry_scenario :
    (getWeightProgress [⟨"w1", 1, 80⟩, ⟨"w2", 7, (157 : Rat) / 2⟩] 7 7).2.entries_found = 2 ∧
    (getWeightProgress [⟨"w1", 1, 80⟩, ⟨"w2", 7, (157 : Rat) / 2⟩] 7 7).2.total_change
      = -(3 / 2) ∧
    (getWeightProgress [⟨"w1", 1, 80⟩, ⟨"w2", 7, (157 : Rat) / 2⟩] 7 7).2.average_daily_change
      = -(3 / 2) :=
  ⟨rfl, c3_summary_total, c3_summary_avg⟩

lemma streakLoop_le (f : Int → Bool) : ∀ (fuel : Nat) (d : Int), streakLoop f d fuel ≤ fuel := by
  intro fuel
  induction fuel with
  | zero => intro d; simp [streakLoop]
  | succ n ih =>
    intro d
    unfold streakLoop
    split
    · have := ih (d - 1)
      omega
    · omega

lemma streakLoop_all (f : Int → Bool) : ∀ (fuel : Nat) (d : Int) (j : Nat),
    j < streakLoop f d fuel → f (d - j) = true := by
  intro fuel
  induction fuel with
  | zero => intro d j hj; simp [streakLoop] at hj
  | succ n ih =>
    intro d j hj
    unfold streakLoop at hj
    by_cases h : f d
    · rw [if_pos h] at hj
      cases j with
      | zero => simpa using h
      | succ j' =>
        have hj' : j' < streakLoop f (d - 1) n := by omega
        have hstep := ih (d - 1) j' hj'
        have heq : d - ((j' : Int) + 1) = (d - 1) - j' := by ring
        rw [show ((j' + 1 : Nat) : Int) = (j' : Int) + 1 by push_cast; ring, heq]
        exact hstep
    · rw [if_neg h] at hj
      omega

lemma streakLoop_stop (f : Int → Bool) : ∀ (fuel : Nat) (d : Int),
    streakLoop f d fuel = fuel ∨ f (d - (streakLoop f d fuel : Int)) = false := by
  intro fuel
  induction fuel with
  | zero => intro d; exact Or.inl rfl
  | succ n ih =>
    intro d
    unfold streakLoop
    by_cases h : f d
    · rw [if_pos h]
      rcases ih (d - 1) with hfull | hstop
      · exact Or.inl (by omega)
      · refine Or.inr ?_
        have heq : d - ((1 + streakLoop f (d - 1) n : Nat) : Int) =
            (d - 1) - (streakLoop f (d - 1) n : Int) := by push_cast; ring
        rw [heq]
        exact hstop
    · rw [if_neg h]
      refine Or.inr ?_
      simpa using h

/-- C6: the streak reported by `computeAchievementsAndStats` counts the
consecutive calendar days with a weight entry, walking backward from
today for at most 365 days and stopping at the first day with no entry,
and `longest_streak` always equals `current_streak_days`. -/
theorem c6_streak_characterisation (env : ComputeEnv) :
    (computeAchievementsAndStats env).2.longest_streak =
      (computeAchievementsAndStats env).2.current_streak_days ∧
    ∃ s : Nat, (computeAchievementsAndStats env).2.current_streak_days = (s : Int) ∧
      s ≤ 365 ∧
      (∀ i : Nat, i < s → hasWeightOn env.weights (env.today - i) = true) ∧
      (s = 365 ∨ hasWeightOn env.weights (env.today - s) = false) :=
  ⟨rfl, streakLoop (hasWeightOn env.weights) env.today 365, rfl,
    streakLoop_le _ 365 _,
    fun i hi => streakLoop_all _ 365 _ i hi,
    streakLoop_stop _ 365 _⟩

theorem c6_streak_witness :
    (computeAchievementsAndStats ⟨[⟨"w", 5, 80⟩], [], [], none, 5, "T"⟩).2.longest_streak =
      (computeAchievementsAndStats ⟨[⟨"w", 5, 80⟩], [], [], none, 5, "T"⟩).2.current_streak_days ∧
    ∃ s : Nat,
      (computeAchievementsAndStats
          ⟨[⟨"w", 5, 80⟩], [], [], none, 5, "T"⟩).2.current_streak_days = (s : Int) ∧
      s ≤ 365 ∧
      (∀ i : Nat, i < s →
        hasWeightOn [(⟨"w", 5, 80⟩ : WeightEntry)] ((5 : Int) - i) = true) ∧
      (s = 365 ∨ hasWeightOn [(⟨"w", 5, 80⟩ : WeightEntry)] ((5 : Int) - s) = false) :=
  c6_streak_characterisation ⟨[⟨"w", 5, 80⟩], [], [], none, 5, "T"⟩

lemma stampUnlocked_badge_type (now : String) (a : Achievement) :
    (stampUnlocked now a).badge_type = a.badge_type := by
  unfold stampUnlocked
  split <;> rfl

lemma stampUnlocked_current_count (now : String) (a : Achievement) :
    (stampUnlocked now a).current_count = a.current_count := by
  unfold stampUnlocked
  split <;> rfl

lemma stampUnlocked_is_unlocked (now : String) (a : Achievement) :
    (stampUnlocked now a).is_unlocked = a.is_unlocked := by
  unfold stampUnlocked
  split <;> rfl

lemma stampUnlocked_requirement_count (now : String) (a : Achievement) :
    (stampUnlocked now a).requirement_count = a.requirement_count := by
  unfold stampUnlocked
  split <;> rfl

lemma stampUnlocked_xp_reward (now : String) (a : Achievement) :
    (stampUnlocked now a).xp_reward = a.xp_reward := by
  unfold stampUnlocked
  split <;> rfl

lemma updateAchievement_of_first (w : Nat) (glasses : Int) (now : String) (a : Achievement)
    (h : a.badge_type = "first_weight") :
    updateAchievement w glasses now a =
      stampUnlocked now { a with
        current_count := if w > 0 then 1 else 0,
        is_unlocked := decide ((if w > 0 then (1 : Int) else 0) ≥ a.requirement_count) } := by
  unfold updateAchievement
  simp [h, stampUnlocked_badge_type]

lemma updateAchievement_of_seven (w : Nat) (glasses : Int) (now : String) (a : Achievement)
    (h : a.badge_type = "seven_days") :
    updateAchievement w glasses now a =
      stampUnlocked now { a with
        current_count := min 7 (w : Int),
        is_unlocked := decide (min 7 (w : Int) ≥ a.requirement_count) } := by
  unfold updateAchievement
  simp [h, stampUnlocked_badge_type]

lemma updateAchievement_of_water (w : Nat) (glasses : Int) (now : String) (a : Achievement)
    (h : a.badge_type = "water_10") :
    updateAchievement w glasses now a =
      stampUnlocked now { a with
        current_count := glasses,
        is_unlocked := decide (glasses ≥ a.requirement_count) } := by
  unfold updateAchievement
  simp [h, stampUnlocked_badge_type]

/-- C1 counterexample: with no weight entries, 12 glasses of water today
and the seed catalog, the recomputed catalog's `water_10` achievement
gets `current_count = 12 > 10 = requirement_count`, refuting
"every achievement satisfies `current_count ≤ requirement_count`". -/
theorem c1_counterexample :
    ((computeAchievementsAndStats envWater12).1.map
      (fun a => decide (a.current_count ≤ a.requirement_count))) = [true, true, false] ∧
    ((computeAchievementsAndStats envWater12).1.get? 2).map
      (fun a => (a.badge_type, a.current_count, a.requirement_count, a.is_unlocked)) =
      some ("water_10", 12, 10, true) := by
  constructor <;> decide

/-- C1 (amended): on every recomputation over a catalog whose
achievements carry the fixed badge types and requirements, each returned
achievement satisfies `is_unlocked ⇔ current_count ≥ requirement_count`;
`current_count ≤ requirement_count` holds for `first_weight` and
`seven_days`, but not in general for `water_10`, whose `current_count`
is today's water counter and may exceed its requirement. -/
theorem c1_unlock_iff_requirement (env : ComputeEnv)
    (hcat : ∀ a ∈ env.storedAch.getD baseAchievements, recognizedBadge a) :
    ∀ b ∈ (computeAchievementsAndStats env).1,
      (b.is_unlocked = true ↔ b.current_count ≥ b.requirement_count) ∧
      (b.badge_type ≠ "water_10" → b.current_count ≤ b.requirement_count) := by
  intro b hb
  have hmap : (computeAchievementsAndStats env).1 =
      (env.storedAch.getD baseAchievements).map
        (updateAchievement env.weights.length
          (glassesToday env.drinks env.today) env.now) := rfl
  rw [hmap] at hb
  rcases List.mem_map.mp hb with ⟨a, ha, rfl⟩
  rcases hcat a ha with ⟨hbt, hrc⟩ | ⟨hbt, hrc⟩ | ⟨hbt, hrc⟩
  · rw [updateAchievement_of_first _ _ _ _ hbt]
    constructor
    · rw [stampUnlocked_is_unlocked, stampUnlocked_current_count,
        stampUnlocked_requirement_count]
      simp
    · intro _
      rw [stampUnlocked_current_count, stampUnlocked_requirement_count]
      simp only [hrc]
      split <;> omega
  · rw [updateAchievement_of_seven _ _ _ _ hbt]
    constructor
    · rw [stampUnlocked_is_unlocked, stampUnlocked_current_count,
        stampUnlocked_requirement_count]
      simp
    · intro _
      rw [stampUnlocked_current_count, stampUnlocked_requirement_count]
      simp only [hrc]
      have : (0 : Int) ≤ (env.weights.length : Int) := by positivity
      omega
  · rw [updateAchievement_of_water _ _ _ _ hbt]
    constructor
    · rw [stampUnlocked_is_unlocked, stampUnlocked_current_count,
        stampUnlocked_requirement_count]
      simp
    · intro hne
      exact absurd (by rw [stampUnlocked_badge_type]; simpa using hbt) hne

theorem c1_unlock_iff_requirement_witness :
    (∀ a ∈ (envWater12.storedAch.getD baseAchievements), recognizedBadge a) ∧
    ∀ b ∈ (computeAchievementsAndStats envWater12).1,
      (b.is_unlocked = true ↔ b.current_count ≥ b.requirement_count) ∧
      (b.badge_type ≠ "water_10" → b.current_count ≤ b.requirement_count) :=
  ⟨by decide, c1_unlock_iff_requirement envWater12 (by decide)⟩

lemma streakLoop_eq_zero (f : Int → Bool) (d : Int) (fuel : Nat) (h : f d = false) :
    streakLoop f d fuel = 0 := by
  cases fuel
  · rfl
  · unfold streakLoop
    rw [if_neg (by simp [h])]

/-- C4 counterexample: with an empty weight store but 12 glasses of
water recorded for today, `water_10` unlocks and `total_xp = 120 ≠ 0`,
refuting "total_xp = 0 regardless of the other stored records". -/
theorem c4_counterexample :
    envWater12.weights = [] ∧
    (computeAchievementsAndStats envWater12).2.total_xp = 120 ∧
    ¬ ((computeAchievementsAndStats envWater12).2.total_xp = 0) := by
  refine ⟨rfl, by decide, by decide⟩

lemma base_catalog_update_empty_general (g : Int) (now : String) :
    baseAchievements.map (updateAchievement 0 g now) =
      [⟨"a1", "first_weight", "Erster Eintrag", "Erstes Gewicht gespeichert",
        "checkmark-circle", "#FFD54F", 50, 1, 0, false, none⟩,
       ⟨"a2", "seven_days", "7 Tage", "7 Tage Gewichte gespeichert",
        "calendar", "#4FC3F7", 100, 7, 0, false, none⟩,
       updateAchievement 0 g now
         ⟨"a3", "water_10", "Wassermeister", "10 Gläser Wasser an einem Tag",
          "water", "#64B5F6", 120, 10, 0, false, none⟩] := rfl

/-- C4 (amended): with no weight entry stored and no persisted catalog,
`computeAchievementsAndStats` returns the `first_weight` achievement
locked, `current_level = 1` and `current_streak_days = 0`, regardless of
the other stored records; `total_xp = 0` additionally requires today's
water counter to be below 10 (otherwise the `water_10` unlock
contributes its 120 XP, which still leaves the level at 1). -/
theorem c4_empty_weight_store (env : ComputeEnv) (hw : env.weights = [])
    (hach : env.storedAch = none) :
    (∀ b ∈ (computeAchievementsAndStats env).1,
      b.badge_type = "first_weight" → b.is_unlocked = false) ∧
    (computeAchievementsAndStats env).2.current_level = 1 ∧
    (computeAchievementsAndStats env).2.current_streak_days = 0 ∧
    (glassesToday env.drinks env.today < 10 →
      (computeAchievementsAndStats env).2.total_xp = 0) := by
  have hcat : (computeAchievementsAndStats env).1 =
      baseAchievements.map (updateAchievement env.weights.length
        (glassesToday env.drinks env.today) env.now) := by
    show (env.storedAch.getD baseAchievements).map _ = _
    rw [hach]
    rfl
  rw [hw] at hcat
  simp only [List.length_nil] at hcat
  rw [base_catalog_update_empty_general] at hcat
  have hu3unl : (updateAchievement 0 (glassesToday env.drinks env.today) env.now
      ⟨"a3", "water_10", "Wassermeister", "10 Gläser Wasser an einem Tag",
        "water", "#64B5F6", 120, 10, 0, false, none⟩).is_unlocked =
      decide (glassesToday env.drinks env.today ≥ (10 : Int)) := by
    rw [updateAchievement_of_water _ _ _ _ rfl, stampUnlocked_is_unlocked]
  have hu3xp : (updateAchievement 0 (glassesToday env.drinks env.today) env.now
      ⟨"a3", "water_10", "Wassermeister", "10 Gläser Wasser an einem Tag",
        "water", "#64B5F6", 120, 10, 0, false, none⟩).xp_reward = 120 := by
    rw [updateAchievement_of_water _ _ _ _ rfl, stampUnlocked_xp_reward]
  have htxp : (computeAchievementsAndStats env).2.total_xp =
      (if glassesToday env.drinks env.today ≥ (10 : Int) then (120 : Int) else 0) := by
    show (((computeAchievementsAndStats env).1.filter fun a => a.is_unlocked).map
      (fun a => a.xp_reward)).sum = _
    rw [hcat]
    by_cases h10 : glassesToday env.drinks env.today ≥ (10 : Int)
    · rw [if_pos h10]
      have hu : (updateAchievement 0 (glassesToday env.drinks env.today) env.now
          ⟨"a3", "water_10", "Wassermeister", "10 Gläser Wasser an einem Tag",
            "water", "#64B5F6", 120, 10, 0, false, none⟩).is_unlocked = true := by
        rw [hu3unl]
        simpa using h10
      simp [List.filter, hu, hu3xp]
    · rw [if_neg h10]
      have hu : (updateAchievement 0 (glassesToday env.drinks env.today) env.now
          ⟨"a3", "water_10", "Wassermeister", "10 Gläser Wasser an einem Tag",
            "water", "#64B5F6", 120, 10, 0, false, none⟩).is_unlocked = false := by
        rw [hu3unl]
        simpa using h10
      simp [List.filter, hu]
  refine ⟨?_, ?_, ?_, ?_⟩
  · intro b hb hfw
    rw [hcat] at hb
    simp only [List.mem_cons, List.not_mem_nil, or_false] at hb
    rcases hb with rfl | rfl | rfl
    · rfl
    · simp at hfw
    · rw [updateAchievement_of_water _ _ _ _ rfl, stampUnlocked_badge_type] at hfw
      simp at hfw
  · have hlvl : (computeAchievementsAndStats env).2.current_level =
        max 1 (Int.fdiv ((computeAchievementsAndStats env).2.total_xp) 500 + 1) := rfl
    rw [hlvl, htxp]
    by_cases h10 : glassesToday env.drinks env.today ≥ (10 : Int)
    · rw [if_pos h10]
      decide
    · rw [if_neg h10]
      decide
  · show ((streakLoop (hasWeightOn env.weights) env.today 365 : Nat) : Int) = 0
    rw [hw, streakLoop_eq_zero _ _ _ rfl]
    rfl
  · intro hg
    rw [htxp, if_neg (by omega)]

theorem c4_empty_weight_store_witness :
    ((envWater12.weights = []) ∧
      (∀ b ∈ (computeAchievementsAndStats envWater12).1,
        b.badge_type = "first_weight" → b.is_unlocked = false) ∧
      (computeAchievementsAndStats envWater12).2.current_level = 1 ∧
      (computeAchievementsAndStats envWater12).2.current_streak_days = 0) ∧
    (glassesToday [⟨"d1", 0, ⟨4, 0, 0, 0, 0⟩⟩] 0 < 10 ∧
      (computeAchievementsAndStats
        ⟨[], [⟨"d1", 0, ⟨4, 0, 0, 0, 0⟩⟩], [], none, 0, "T0"⟩).2.total_xp = 0) :=
  ⟨⟨rfl, (c4_empty_weight_store envWater12 rfl rfl).1,
      (c4_empty_weight_store envWater12 rfl rfl).2.1,
      (c4_empty_weight_store envWater12 rfl rfl).2.2.1⟩,
    ⟨by decide,
      (c4_empty_weight_store ⟨[], [⟨"d1", 0, ⟨4, 0, 0, 0, 0⟩⟩], [], none, 0, "T0"⟩
        rfl rfl).2.2.2 (by decide)⟩⟩

lemma stampUnlocked_unlocked_at_of_notFalsy (now : String) (a : Achievement)
    (h : jsFalsyStr a.unlocked_at = false) :
    (stampUnlocked now a).unlocked_at = a.unlocked_at := by
  unfold stampUnlocked
  rw [if_neg]
  simp [h]

lemma updateAchievement_unlocked_at_stable (w : Nat) (g : Int) (now : String)
    (a : Achievement) (ts : String) (h : a.unlocked_at = some ts) (hts : ts ≠ "") :
    (updateAchievement w g now a).unlocked_at = some ts := by
  have hf : jsFalsyStr a.unlocked_at = false := by
    rw [h]
    simpa [jsFalsyStr] using hts
  by_cases h1 : a.badge_type = "first_weight"
  · rw [updateAchievement_of_first _ _ _ _ h1,
      stampUnlocked_unlocked_at_of_notFalsy _ _ (by simpa using hf)]
    simpa using h
  by_cases h2 : a.badge_type = "seven_days"
  · rw [updateAchievement_of_seven _ _ _ _ h2,
      stampUnlocked_unlocked_at_of_notFalsy _ _ (by simpa using hf)]
    simpa using h
  by_cases h3 : a.badge_type = "water_10"
  · rw [updateAchievement_of_water _ _ _ _ h3,
      stampUnlocked_unlocked_at_of_notFalsy _ _ (by simpa using hf)]
    simpa using h
  · unfold updateAchievement
    simp [h1, h2, h3, h]

lemma runRecomputes_unlocked_at_stable : ∀ (steps : List RecomputeStep)
    (c : List Achievement) (i : Nat) (a : Achievement) (ts : String),
    c.get? i = some a → a.unlocked_at = some ts → ts ≠ "" →
    ∃ b, (runRecomputes c steps).get? i = some b ∧ b.unlocked_at = some ts := by
  intro steps
  induction steps with
  | nil => exact fun c i a ts h1 h2 _ => ⟨a, h1, h2⟩
  | cons s rest ih =>
    intro c i a ts h1 h2 h3
    have hstep : ((computeAchievementsAndStats (stepEnv c s)).1).get? i =
        some (updateAchievement s.weights.length (glassesToday s.drinks s.today) s.now a) := by
      show (c.map _).get? i = _
      rw [List.get?_map, h1]
      rfl
    exact ih _ i _ ts hstep
      (updateAchievement_unlocked_at_stable _ _ _ _ _ h2 h3) h3

lemma stampUnlocked_unlocked_at_of_none (now : String) (a : Achievement)
    (h : a.unlocked_at = none) :
    (stampUnlocked now a).unlocked_at =
      (if (stampUnlocked now a).is_unlocked then some now else none) := by
  unfold stampUnlocked
  rw [h]
  cases hu : a.is_unlocked <;> simp [jsFalsyStr, hu, h]

/-- C7: `unlocked_at` is write-once.  First conjunct: a nonempty
timestamp stored in any catalog position survives every later sequence
of recomputations unchanged (never overwritten or cleared; stamps are
`new Date().toISOString()` strings, hence nonempty).  Second conjunct: a
still-unstamped achievement of the catalog's badge types gets
`unlocked_at := now` by a recomputation exactly when that recomputation
leaves it unlocked — i.e. the stamp is assigned on the first
recomputation in which the achievement becomes unlocked. -/
theorem c7_unlocked_at_write_once :
    (∀ (c : List Achievement) (steps : List RecomputeStep) (i : Nat) (a : Achievement)
      (ts : String), c.get? i = some a → a.unlocked_at = some ts → ts ≠ "" →
      ∃ b, (runRecomputes c steps).get? i = some b ∧ b.unlocked_at = some ts) ∧
    (∀ (w : Nat) (g : Int) (now : String) (a : Achievement),
      a.unlocked_at = none →
      (a.badge_type = "first_weight" ∨ a.badge_type = "seven_days" ∨
        a.badge_type = "water_10") →
      (updateAchievement w g now a).unlocked_at =
        (if (updateAchievement w g now a).is_unlocked then some now else none)) := by
  refine ⟨fun c steps i a ts h1 h2 h3 =>
    runRecomputes_unlocked_at_stable steps c i a ts h1 h2 h3, ?_⟩
  intro w g now a hnone hbadge
  rcases hbadge with h1 | h1 | h1
  · rw [updateAchievement_of_first _ _ _ _ h1]
    exact stampUnlocked_unlocked_at_of_none _ _ (by simpa using hnone)
  · rw [updateAchievement_of_seven _ _ _ _ h1]
    exact stampUnlocked_unlocked_at_of_none _ _ (by simpa using hnone)
  · rw [updateAchievement_of_water _ _ _ _ h1]
    exact stampUnlocked_unlocked_at_of_none _ _ (by simpa using hnone)

theorem c7_unlocked_at_write_once_witness :
    (∃ b, (runRecomputes
        [⟨"a1", "first_weight", "Erster Eintrag", "Erstes Gewicht gespeichert",
          "checkmark-circle", "#FFD54F", 50, 1, 1, true, some "2024-01-01T00:00:00Z"⟩]
        [⟨[], [], [], 0, "2024-02-02T00:00:00Z"⟩]).get? 0 = some b ∧
      b.unlocked_at = some "2024-01-01T00:00:00Z") ∧
    (updateAchievement 1 0 "2024-03-03T00:00:00Z"
        ⟨"a1", "first_weight", "Erster Eintrag", "Erstes Gewicht gespeichert",
          "checkmark-circle", "#FFD54F", 50, 1, 0, false, none⟩).unlocked_at =
      (if (updateAchievement 1 0 "2024-03-03T00:00:00Z"
        ⟨"a1", "first_weight", "Erster Eintrag", "Erstes Gewicht gespeichert",
          "checkmark-circle", "#FFD54F", 50, 1, 0, false, none⟩).is_unlocked
        then some "2024-03-03T00:00:00Z" else none) :=
  ⟨c7_unlocked_at_write_once.1 _ _ 0 _ _ rfl rfl (by decide),
    c7_unlocked_at_write_once.2 1 0 _ _ rfl (Or.inl rfl)⟩
